import Mathlib

/-
Shallow embedding of the sddm email-authentication DNS validators
(DKIM / SPF / DMARC / MX).  JavaScript strings are modelled as lists of
characters; the DNS-over-HTTPS response is modelled as a record with a
status code and an optional answer list; the async network layer is
modelled by passing the resolver's response (or, for DKIM, a resolver
function from query names to responses) as an argument.  JavaScript
runtime errors (TypeError on undefined) are modelled with Except.
-/

namespace SDDM

/-- A JavaScript string, modelled as its list of characters. -/
abbrev JStr := List Char

/-- Embed a Lean string literal as a JStr. -/
def jstr (s : String) : JStr := s.data

/-- JavaScript String.prototype.split with a single-character separator:
splits on every occurrence, keeping empty pieces; splitting the empty
string yields one empty piece. -/
def splitChar (sep : Char) : JStr → List JStr
  | [] => [[]]
  | c :: rest =>
    if c = sep then [] :: splitChar sep rest
    else
      match splitChar sep rest with
      | h :: t => (c :: h) :: t
      | [] => [[c]]

/-- Pattern pat occurs at the start of s (JS startsWith / regex anchored at start). -/
def isPre : JStr → JStr → Bool
  | [], _ => true
  | _ :: _, [] => false
  | p :: ps, c :: cs => p = c && isPre ps cs

/-- JavaScript String.prototype.includes: pat occurs somewhere in s. -/
def jsIncludes : JStr → JStr → Bool
  | [], pat => isPre pat []
  | c :: rest, pat => isPre pat (c :: rest) || jsIncludes rest pat

/-- ASCII case folding of one character (adequate model of JS toLowerCase
for the ASCII record data these validators handle). -/
def toLowerChar (c : Char) : Char :=
  if 'A' ≤ c ∧ c ≤ 'Z' then Char.ofNat (c.toNat + 32) else c

/-- JavaScript String.prototype.toLowerCase (ASCII model). -/
def toLowerJS (s : JStr) : JStr := s.map toLowerChar

/-- Whitespace characters recognised by JS trim / parseInt (ASCII model). -/
def jsWhite (c : Char) : Bool :=
  c = ' ' || c = '\t' || c = '\n' || c = '\r' || c = '\x0b' || c = '\x0c'

/-- JavaScript String.prototype.trim (ASCII whitespace model). -/
def trimJS (s : JStr) : JStr :=
  ((s.dropWhile jsWhite).reverse.dropWhile jsWhite).reverse

/-- JS replace with the anchored alternation removing one leading and one
trailing double quote, as in the SPF record cleanup. -/
def stripEdgeQuotes (s : JStr) : JStr :=
  let s1 := match s with
    | '"' :: rest => rest
    | other => other
  if s1.getLast? = some '"' then s1.dropLast else s1

/-- JS replace removing a single trailing dot, as in the MX exchange cleanup. -/
def stripTrailDot (s : JStr) : JStr :=
  if s.getLast? = some '.' then s.dropLast else s

/-- dkim.ts truncateRecord with its default maxLength of 50. -/
def truncateRecord (record : JStr) : JStr :=
  if record.length ≤ 50 then record else record.take 50 ++ jstr "..."

/-- One raw DNS answer record (only the data field is consulted). -/
structure AnswerRecord where
  data : JStr
deriving DecidableEq

/-- The DoH JSON response: a Status code and an optional Answer array. -/
structure ResolverResponse where
  Status : Int
  Answer : Option (List AnswerRecord)
deriving DecidableEq

/- ===================== DKIM (src/dkim.ts) ===================== -/

/-- The fixed common selector list of dkim.ts. -/
def commonDkimSelectors : List JStr :=
  [jstr "google", jstr "selector1", jstr "selector2", jstr "k1", jstr "k2",
   jstr "ctct1", jstr "ctct2", jstr "sm", jstr "s1", jstr "s2", jstr "sig1",
   jstr "litesrv", jstr "zendesk1", jstr "zendesk2", jstr "mail", jstr "email",
   jstr "dkim", jstr "default"]

/-- The provider-to-selector lookup table of dkim.ts; none models the
undefined produced by indexing with an unknown key. -/
def dkimSelectorsForProviders (p : JStr) : Option (List JStr) :=
  if p = jstr "google" then some [jstr "google"]
  else if p = jstr "microsoft" then some [jstr "selector1", jstr "selector2"]
  else none

/-- The selector list checkDkim iterates, per the JS ternary
(provider ? table[provider] : commonDkimSelectors): the test is JS
truthiness, so both an absent provider and the falsy empty string select
the common list; a truthy provider selects the table entry, which is
undefined (none) for unknown keys. -/
def dkimSelectorList : Option JStr → Option (List JStr)
  | none => some commonDkimSelectors
  | some p =>
    if p = [] then some commonDkimSelectors
    else dkimSelectorsForProviders p

/-- Query name used for a DKIM selector probe. -/
def dkimQueryName (selector domain : JStr) : JStr :=
  selector ++ jstr "._domainkey." ++ domain

/-- The quote-stripped, semicolon-split, trimmed segments of a DKIM record
(the parts computed inside isValidDkimRecord). -/
def dkimParts (record : JStr) : List JStr :=
  (splitChar ';' (record.filter (fun c => c ≠ '\'' && c ≠ '"'))).map trimJS

/-- dkim.ts isValidDkimRecord: needs a v=DKIM1 segment (case-sensitive),
a k= segment, and a p= segment with nonempty key. -/
def isValidDkimRecord (record : JStr) : Bool :=
  let parts := dkimParts record
  (parts.any (fun part => isPre (jstr "v=DKIM1") part)) &&
  (parts.any (fun part => isPre (jstr "k=") part)) &&
  (parts.any (fun part => isPre (jstr "p=") part && (trimJS (part.drop 2)).length > 0))

/-- Per-selector probe result; isValid none models the null tri-state. -/
structure DkimValidationResult where
  isValid : Option Bool
  reason : JStr
deriving DecidableEq

/-- The reason message for a malformed DKIM record for a selector. -/
def invalidFormatReason (selector record : JStr) : JStr :=
  jstr "Invalid DKIM record format for selector " ++ selector ++ jstr " - " ++
    truncateRecord record

/-- dkim.ts validateDkimForSelector, as a function of the resolver response
for the selector probe.  Note: this function never looks at Status. -/
def validateDkimForSelector (response : ResolverResponse) (selector : JStr) :
    DkimValidationResult :=
  match response.Answer with
  | none => ⟨none, jstr "No DKIM records found for selector " ++ selector⟩
  | some dkimRecords =>
    if dkimRecords.length = 0 then
      ⟨none, jstr "No DKIM records found for selector " ++ selector⟩
    else
      let validDkimRecords := dkimRecords.filter
        (fun record => jsIncludes (toLowerJS record.data) (jstr "v=dkim1"))
      match validDkimRecords with
      | [] => ⟨some false, jstr "No valid DKIM records found for selector " ++ selector⟩
      | [record] =>
        if isValidDkimRecord record.data then ⟨some true, jstr "All checks passed"⟩
        else ⟨some false, invalidFormatReason selector record.data⟩
      | _ :: _ :: _ =>
        ⟨some false, jstr "Multiple DKIM records found for selector " ++ selector⟩

/-- checkDkim's external result. -/
structure DkimCheckResult where
  isValid : Bool
  reason : JStr
  dkimSelectors : Option (List JStr)
deriving DecidableEq

/-- JS Map.set on an insertion-ordered association list: update in place if
the key exists, else append. -/
def mapSet (m : List (JStr × JStr)) (k v : JStr) : List (JStr × JStr) :=
  if m.any (fun kv => kv.1 = k) then
    m.map (fun kv => if kv.1 = k then (k, v) else kv)
  else m ++ [(k, v)]

/-- One awaited probe of the checkDkim loop: build the selector's query
name, resolve it, validate the response. -/
def dkimProbe (resolve : JStr → ResolverResponse) (domain selector : JStr) :
    DkimValidationResult :=
  validateDkimForSelector (resolve (dkimQueryName selector domain)) selector

/-- The selector loop of checkDkim, with the foundValidSelectors map as
accumulator. -/
def checkDkimLoop (resolve : JStr → ResolverResponse) (domain : JStr) :
    List JStr → List (JStr × JStr) → DkimCheckResult
  | [], found =>
    if found.length > 0 then
      ⟨true, jstr "DKIM records found", some (found.map Prod.fst)⟩
    else ⟨false, jstr "No valid DKIM records found", none⟩
  | selector :: rest, found =>
    let result := dkimProbe resolve domain selector
    if result.isValid = some true then
      checkDkimLoop resolve domain rest (mapSet found selector result.reason)
    else if result.isValid = some false ∧
        jsIncludes result.reason (jstr "No DKIM records found") = false ∧
        jsIncludes result.reason (jstr "No valid DKIM records found") = false then
      ⟨false, result.reason, none⟩
    else checkDkimLoop resolve domain rest found

/-- dkim.ts checkDkim.  Iterating the undefined selector list obtained for
an unrecognized provider throws a TypeError, modelled as Except.error. -/
def checkDkim (resolve : JStr → ResolverResponse) (domain : JStr)
    (provider : Option JStr) : Except Unit DkimCheckResult :=
  match dkimSelectorList provider with
  | some selectorsToCheck => .ok (checkDkimLoop resolve domain selectorsToCheck [])
  | none => .error ()

/-- A probe outcome on which checkDkim returns immediately: isValid false
and a reason containing neither skip phrase. -/
def dkimImmediate (r : DkimValidationResult) : Prop :=
  r.isValid = some false ∧
  jsIncludes r.reason (jstr "No DKIM records found") = false ∧
  jsIncludes r.reason (jstr "No valid DKIM records found") = false

instance (r : DkimValidationResult) : Decidable (dkimImmediate r) := by
  unfold dkimImmediate; infer_instance

/- ===================== SPF (spf.ts) ===================== -/

/-- SPF qualifier characters. -/
def spfQualifier (c : Char) : Bool :=
  c = '+' || c = '-' || c = '?' || c = '~'

/-- Does the token start with a qualifier character. -/
def startsWithQualifier : JStr → Bool
  | c :: _ => spfQualifier c
  | [] => false

/-- Skip one leading qualifier if present (the mech computation in
countDnsLookups). -/
def stripQualifier (mechanism : JStr) : JStr :=
  match mechanism with
  | c :: rest => if spfQualifier c then rest else mechanism
  | [] => []

/-- The lookup-mechanism test of countDnsLookups applied to an already
qualifier-stripped token. -/
def mechPattern (mech : JStr) : Bool :=
  isPre (jstr "include:") mech || isPre (jstr "a:") mech ||
  isPre (jstr "mx:") mech || isPre (jstr "ptr:") mech ||
  isPre (jstr "exists:") mech || isPre (jstr "redirect=") mech ||
  mech = jstr "a" || mech = jstr "mx"

/-- One loop iteration of countDnsLookups: strip a qualifier, then test. -/
def mechIncursLookup (mechanism : JStr) : Bool :=
  mechPattern (stripQualifier mechanism)

/-- The mechanism token list of countDnsLookups: drop the 6-character
v=spf1 prefix, trim, split on spaces, keep nonempty tokens. -/
def spfMechanisms (spfRecord : JStr) : List JStr :=
  (splitChar ' ' (trimJS (spfRecord.drop 6))).filter (fun m => m ≠ [])

/-- spf.ts countDnsLookups. -/
def countDnsLookups (spfRecord : JStr) : Nat :=
  (spfMechanisms spfRecord).countP (fun m => mechIncursLookup m)

/-- checkSpf's result. -/
structure SpfResult where
  isValid : Bool
  reason : JStr
  spf : Option JStr
deriving DecidableEq

/-- spf.ts checkSpf as a function of the resolver response for the TXT
query at the bare domain. -/
def checkSpf (response : ResolverResponse) : SpfResult :=
  if response.Status ≠ 0 then
    ⟨false, jstr "DNS query failed or returned an error status", none⟩
  else
    match response.Answer with
    | none => ⟨false, jstr "No TXT records found", none⟩
    | some answers =>
      if answers.length = 0 then ⟨false, jstr "No TXT records found", none⟩
      else
        let spfRecords := answers.filter
          (fun record => isPre (jstr "v=spf1") (toLowerJS (stripEdgeQuotes record.data)))
        match spfRecords with
        | [] => ⟨false, jstr "No SPF record found", none⟩
        | [record] =>
          let spfText := stripEdgeQuotes record.data
          if countDnsLookups spfText > 10 then
            ⟨false, jstr "Too many DNS lookups (exceeds 10)", none⟩
          else ⟨true, jstr "Valid SPF record", some spfText⟩
        | _ :: _ :: _ => ⟨false, jstr "Multiple SPF records found", none⟩

/- ===================== DMARC (dmarc.ts) ===================== -/

/-- checkDmarc's result. -/
structure DmarcResult where
  isValid : Bool
  reason : JStr
  dmarc : Option JStr
deriving DecidableEq

/-- dmarc.ts checkDmarc as a function of the resolver response for the TXT
query at the _dmarc subdomain. -/
def checkDmarc (response : ResolverResponse) : DmarcResult :=
  if response.Status ≠ 0 then
    ⟨false, jstr "DNS query failed or returned an error status", none⟩
  else
    match response.Answer with
    | none => ⟨false, jstr "No TXT records found", none⟩
    | some answers =>
      if answers.length = 0 then ⟨false, jstr "No TXT records found", none⟩
      else
        let dmarcRecords := answers.filter
          (fun record => jsIncludes (toLowerJS record.data) (jstr "v=dmarc1"))
        match dmarcRecords with
        | [] => ⟨false, jstr "No valid DMARC record found", none⟩
        | [record] =>
          let dmarcRecord := record.data.filter (fun c => c ≠ '\'' && c ≠ '"')
          if isPre (jstr "v=dmarc1") (toLowerJS dmarcRecord) &&
              jsIncludes (toLowerJS dmarcRecord) (jstr "p=") &&
              jsIncludes (toLowerJS dmarcRecord) (jstr "rua=") then
            ⟨true, jstr "Valid DMARC record", some dmarcRecord⟩
          else
            ⟨false, jstr "Invalid DMARC record format - missing required tags (v=DMARC1, p=, rua=)", none⟩
        | _ :: _ :: _ => ⟨false, jstr "Multiple DMARC records found", none⟩

/- ===================== MX (mx.ts) ===================== -/

/-- One parsed MX entry; preference none models JS NaN. -/
structure MxEntry where
  preference : Option Int
  exchange : JStr
deriving DecidableEq

/-- checkMx's result. -/
structure MxCheckResult where
  isValid : Bool
  reason : JStr
  mx : Option (List MxEntry)
deriving DecidableEq

/-- Character value of an ASCII digit. -/
def digitVal (c : Char) : Nat := c.toNat - 48

/-- Base-10 value of a digit list. -/
def natOfDigits (l : JStr) : Nat := l.foldl (fun a c => a * 10 + digitVal c) 0

/-- The leading digit run of a string. -/
def leadDigits (s : JStr) : JStr := s.takeWhile Char.isDigit

/-- Parse the leading digit run, none if there is none (NaN). -/
def parseUnsigned (s : JStr) : Option Nat :=
  if leadDigits s = [] then none else some (natOfDigits (leadDigits s))

/-- JS parseInt(s, 10): skip leading whitespace, optional sign, parse the
leading digit run, NaN (none) when no digits follow. -/
def jsParseInt (s : JStr) : Option Int :=
  match s.dropWhile jsWhite with
  | [] => none
  | c :: rest =>
    if c = '+' then (parseUnsigned rest).map Int.ofNat
    else if c = '-' then (parseUnsigned rest).map (fun n => -(n : Int))
    else (parseUnsigned (c :: rest)).map Int.ofNat

/-- The destructuring map of checkMx: each answer's data is split on a
space into preference and exchange; a missing exchange makes the JS code
throw (none here), aborting the whole map. -/
def mapMx : List AnswerRecord → Option (List MxEntry)
  | [] => some []
  | answer :: rest =>
    match splitChar ' ' answer.data with
    | pref :: exch :: _ =>
      (mapMx rest).map (fun entries =>
        ⟨jsParseInt pref, stripTrailDot (toLowerJS exch)⟩ :: entries)
    | _ => none

/-- String interpolation of an MX preference (NaN prints as NaN). -/
def prefShow : Option Int → JStr
  | none => jstr "NaN"
  | some n => jstr (toString n)

/-- isNaN or out of the [0, 65535] range. -/
def prefInvalid : Option Int → Bool
  | none => true
  | some n => n < 0 || n > 65535

/-- ASCII letter or digit. -/
def isAlnumAscii (c : Char) : Bool :=
  ('a' ≤ c && c ≤ 'z') || ('A' ≤ c && c ≤ 'Z') || ('0' ≤ c && c ≤ '9')

/-- The dotted-quad IPv4-literal regex of mx.ts: four all-digit groups of
1 to 3 characters joined by dots. -/
def isIpv4Literal (s : JStr) : Bool :=
  let groups := splitChar '.' s
  groups.length = 4 &&
    groups.all (fun g => decide (g ≠ []) && g.length ≤ 3 && g.all Char.isDigit)

/-- One label of the hostname regex of mx.ts: 1 to 63 characters, first and
last alphanumeric, interior alphanumeric or hyphen. -/
def validHostLabel (l : JStr) : Bool :=
  match l, l.getLast? with
  | c :: _, some d =>
    l.length ≤ 63 && isAlnumAscii c && isAlnumAscii d &&
      l.all (fun x => isAlnumAscii x || x = '-')
  | _, _ => false

/-- The hostname regex of mx.ts: dot-joined valid labels (and nonempty). -/
def isValidHostname (s : JStr) : Bool :=
  (splitChar '.' s).all validHostLabel

/-- The per-record validation loop of checkMx; the first failing check
aborts the whole validation. -/
def mxValidLoop (allRecords : List MxEntry) : List MxEntry → MxCheckResult
  | [] => ⟨true, jstr "All MX records are valid", some allRecords⟩
  | record :: rest =>
    if prefInvalid record.preference then
      ⟨false, jstr "Invalid preference value: " ++ prefShow record.preference ++
        jstr ". Must be between 0 and 65535", none⟩
    else if isIpv4Literal record.exchange then
      ⟨false, jstr "MX exchange cannot be an IP address: " ++ record.exchange, none⟩
    else if isValidHostname record.exchange = false then
      ⟨false, jstr "Invalid hostname format: " ++ record.exchange, none⟩
    else mxValidLoop allRecords rest

/-- mx.ts checkMx as a function of the resolver response for the MX query;
Except.error models the TypeError thrown when an answer has no space
(exchange is undefined and toLowerCase throws). -/
def checkMx (response : ResolverResponse) : Except Unit MxCheckResult :=
  if response.Status ≠ 0 then
    .ok ⟨false, jstr "DNS query failed or returned an error status", none⟩
  else
    match response.Answer with
    | none => .ok ⟨false, jstr "No MX records found for the domain", none⟩
    | some answers =>
      match mapMx answers with
      | none => .error ()
      | some mxRecords =>
        if mxRecords.length = 0 then
          .ok ⟨false, jstr "No valid MX records found", none⟩
        else if (mxRecords.map MxEntry.exchange).dedup.length ≠ mxRecords.length then
          .ok ⟨false, jstr "Duplicate MX exchanges found", none⟩
        else .ok (mxValidLoop mxRecords mxRecords)

/- ===================== Claim-side definitions and fixtures ===================== -/

/-- The DNS-lookup count exactly as the claim words it: strip the
6-character prefix, split on spaces (with no trimming and no removal of
empty tokens), strip one leading qualifier from each token, and count the
tokens matching the lookup patterns.  To be compared with the source
function countDnsLookups, which trims the post-prefix text first. -/
def countDnsLookupsClaimed (spfRecord : JStr) : Nat :=
  (((splitChar ' ' (spfRecord.drop 6))).map stripQualifier).countP mechPattern

/-- Fixture resolver: selector1 carries a single malformed DKIM record
(missing the k= tag) whose text contains the phrase used by checkDkim's
reason dispatch; selector2 carries a valid record. -/
def fixtureResolveSkip : JStr → ResolverResponse := fun q =>
  if q = jstr "selector1._domainkey.example.com" then
    ⟨0, some [⟨jstr "v=DKIM1; p=No valid DKIM records found"⟩]⟩
  else if q = jstr "selector2._domainkey.example.com" then
    ⟨0, some [⟨jstr "v=DKIM1; k=rsa; p=KEY"⟩]⟩
  else ⟨3, none⟩

/-- Fixture resolver: selector1 carries a single DKIM-tagged record whose
version tag is written in lower case and whose text contains the phrase
used by checkDkim's reason dispatch; selector2 carries a valid record. -/
def fixtureResolveLower : JStr → ResolverResponse := fun q =>
  if q = jstr "selector1._domainkey.example.com" then
    ⟨0, some [⟨jstr "v=dkim1; k=rsa; p=No DKIM records found"⟩]⟩
  else if q = jstr "selector2._domainkey.example.com" then
    ⟨0, some [⟨jstr "v=DKIM1; k=rsa; p=KEY"⟩]⟩
  else ⟨3, none⟩

/- ===================== General lemmas ===================== -/

theorem splitChar_no_sep {sep : Char} {l : JStr} (h : sep ∉ l) :
    splitChar sep l = [l] := by
  induction l with
  | nil => rfl
  | cons c rest ih =>
    have hc : ¬ c = sep := by rintro rfl; exact h (List.mem_cons_self _ _)
    have hr : sep ∉ rest := fun hm => h (List.mem_cons_of_mem _ hm)
    simp [splitChar, hc, ih hr]

theorem splitChar_append {sep : Char} {p : JStr} (e : JStr) (hp : sep ∉ p) :
    splitChar sep (p ++ sep :: e) = p :: splitChar sep e := by
  induction p with
  | nil => simp [splitChar]
  | cons c cs ih =>
    have hc : ¬ c = sep := by rintro rfl; exact hp (List.mem_cons_self _ _)
    have hcs : sep ∉ cs := fun hm => hp (List.mem_cons_of_mem _ hm)
    simp [splitChar, hc, ih hcs]

theorem isPre_head {pat s : JStr} (h : isPre pat s = true) (hne : pat ≠ []) :
    pat.head? = s.head? := by
  cases pat with
  | nil => cases hne rfl
  | cons p ps =>
    cases s with
    | nil => simp [isPre] at h
    | cons c cs =>
      simp only [isPre, Bool.and_eq_true, decide_eq_true_eq] at h
      simp [h.1]

theorem mechPattern_not_qualifier {t : JStr} (h : mechPattern t = true) :
    startsWithQualifier t = false := by
  cases t with
  | nil => rfl
  | cons c cs =>
    show spfQualifier c = false
    simp only [mechPattern, Bool.or_eq_true, decide_eq_true_eq] at h
    rcases h with ((((((h|h)|h)|h)|h)|h)|h)|h
    · have h2 : some 'i' = some c := isPre_head h (by decide)
      injection h2 with h3; cases h3; decide
    · have h2 : some 'a' = some c := isPre_head h (by decide)
      injection h2 with h3; cases h3; decide
    · have h2 : some 'm' = some c := isPre_head h (by decide)
      injection h2 with h3; cases h3; decide
    · have h2 : some 'p' = some c := isPre_head h (by decide)
      injection h2 with h3; cases h3; decide
    · have h2 : some 'e' = some c := isPre_head h (by decide)
      injection h2 with h3; cases h3; decide
    · have h2 : some 'r' = some c := isPre_head h (by decide)
      injection h2 with h3; cases h3; decide
    · have h2 : c :: cs = 'a' :: ([] : JStr) := h
      injection h2 with h3 _; cases h3; decide
    · have h2 : c :: cs = 'm' :: 'x' :: ([] : JStr) := h
      injection h2 with h3 _; cases h3; decide

theorem digit_not_white {c : Char} (h : c.isDigit = true) : jsWhite c = false := by
  by_contra hw
  rw [Bool.not_eq_false] at hw
  simp only [jsWhite, Bool.or_eq_true, decide_eq_true_eq] at hw
  rcases hw with ((((rfl|rfl)|rfl)|rfl)|rfl)|rfl <;> exact absurd h (by decide)

theorem takeWhile_of_all {q : Char → Bool} {l : JStr} (h : ∀ x ∈ l, q x = true) :
    l.takeWhile q = l := by
  induction l with
  | nil => rfl
  | cons c cs ih =>
    simp [List.takeWhile_cons, h c (by simp), ih (fun x hx => h x (by simp [hx]))]

theorem jsParseInt_digits {p : JStr} (hne : p ≠ []) (hd : ∀ c ∈ p, c.isDigit = true) :
    jsParseInt p = some (Int.ofNat (natOfDigits p)) := by
  cases p with
  | nil => cases hne rfl
  | cons c cs =>
    have hc : c.isDigit = true := hd c (by simp)
    have hw : jsWhite c = false := digit_not_white hc
    have hplus : ¬ c = '+' := by rintro rfl; exact absurd hc (by decide)
    have hminus : ¬ c = '-' := by rintro rfl; exact absurd hc (by decide)
    have hdrop : (c :: cs).dropWhile jsWhite = c :: cs := by
      simp [List.dropWhile_cons, hw]
    have hld : leadDigits (c :: cs) = c :: cs := takeWhile_of_all hd
    unfold jsParseInt
    rw [hdrop]
    simp only []
    rw [if_neg hplus, if_neg hminus]
    simp [parseUnsigned, hld]

theorem dedup_length_ne {α : Type} [DecidableEq α] {l : List α} (h : ¬ l.Nodup) :
    l.dedup.length ≠ l.length := by
  intro hlen
  exact h (List.dedup_eq_self.mp (l.dedup_sublist.eq_of_length hlen))

theorem mapMx_eq_none {answers : List AnswerRecord} {a : AnswerRecord}
    (hmem : a ∈ answers) (hns : ' ' ∉ a.data) : mapMx answers = none := by
  induction answers with
  | nil => cases hmem
  | cons b rest ih =>
    rcases List.mem_cons.mp hmem with rfl | hmem2
    · simp [mapMx, splitChar_no_sep hns]
    · cases hsp : splitChar ' ' b.data with
      | nil => simp [mapMx, hsp]
      | cons x t =>
        cases t with
        | nil => simp [mapMx, hsp]
        | cons y t2 => simp [mapMx, hsp, ih hmem2]

theorem mapSet_append {m : List (JStr × JStr)} {k : JStr} (v : JStr)
    (h : ∀ kv ∈ m, kv.1 ≠ k) : mapSet m k v = m ++ [(k, v)] := by
  unfold mapSet
  rw [if_neg]
  simp only [List.any_eq_true, not_exists]
  rintro kv ⟨hkv, hk⟩
  exact h kv hkv (by simpa using hk)

theorem checkDkimLoop_immediate (resolve : JStr → ResolverResponse) (domain s : JStr) :
    ∀ (pre : List JStr) (post : List JStr) (found : List (JStr × JStr)),
      (∀ x ∈ pre, ¬ dkimImmediate (dkimProbe resolve domain x)) →
      dkimImmediate (dkimProbe resolve domain s) →
      checkDkimLoop resolve domain (pre ++ s :: post) found =
        ⟨false, (dkimProbe resolve domain s).reason, none⟩ := by
  intro pre
  induction pre with
  | nil =>
    intro post found _ hs
    have h1 : ¬ (dkimProbe resolve domain s).isValid = some true := by
      rw [hs.1]; simp
    unfold dkimImmediate at hs
    show checkDkimLoop resolve domain (s :: post) found = _
    simp only [checkDkimLoop]
    rw [if_neg h1, if_pos hs]
  | cons x pre2 ih =>
    intro post found hpre hs
    have hnx : ¬ dkimImmediate (dkimProbe resolve domain x) := hpre x (by simp)
    unfold dkimImmediate at hnx
    show checkDkimLoop resolve domain (x :: (pre2 ++ s :: post)) found = _
    simp only [checkDkimLoop]
    by_cases hv : (dkimProbe resolve domain x).isValid = some true
    · rw [if_pos hv]
      exact ih post _ (fun y hy => hpre y (by simp [hy])) hs
    · rw [if_neg hv, if_neg hnx]
      exact ih post found (fun y hy => hpre y (by simp [hy])) hs

theorem checkDkimLoop_scan (resolve : JStr → ResolverResponse) (domain : JStr) :
    ∀ (selectors : List JStr) (found : List (JStr × JStr)),
      selectors.Nodup →
      (∀ s ∈ selectors, ¬ dkimImmediate (dkimProbe resolve domain s)) →
      (∀ s ∈ selectors, ∀ kv ∈ found, kv.1 ≠ s) →
      checkDkimLoop resolve domain selectors found =
        (if (found ++ (selectors.filter
              (fun s => decide ((dkimProbe resolve domain s).isValid = some true))).map
              (fun s => (s, (dkimProbe resolve domain s).reason))).length > 0 then
          ⟨true, jstr "DKIM records found",
            some ((found ++ (selectors.filter
              (fun s => decide ((dkimProbe resolve domain s).isValid = some true))).map
              (fun s => (s, (dkimProbe resolve domain s).reason))).map Prod.fst)⟩
        else ⟨false, jstr "No valid DKIM records found", none⟩) := by
  intro selectors
  induction selectors with
  | nil =>
    intro found _ _ _
    simp [checkDkimLoop]
  | cons s rest ih =>
    intro found hnd himm hdisj
    have hs : ¬ dkimImmediate (dkimProbe resolve domain s) := himm s (by simp)
    unfold dkimImmediate at hs
    show checkDkimLoop resolve domain (s :: rest) found = _
    simp only [checkDkimLoop]
    by_cases hv : (dkimProbe resolve domain s).isValid = some true
    · rw [if_pos hv]
      rw [mapSet_append _ (fun kv hkv => hdisj s (by simp) kv hkv)]
      rw [ih (found ++ [(s, (dkimProbe resolve domain s).reason)]) hnd.of_cons
        (fun y hy => himm y (by simp [hy]))
        (fun y hy kv hkv => by
          rcases List.mem_append.mp hkv with hkv2 | hkv2
          · exact hdisj y (by simp [hy]) kv hkv2
          · have hkv3 : kv = (s, (dkimProbe resolve domain s).reason) := by simpa using hkv2
            subst hkv3
            intro hcon
            have hsy : s = y := hcon
            rw [hsy] at hnd
            exact (List.nodup_cons.mp hnd).1 hy)]
      have hfil : (s :: rest).filter
          (fun s => decide ((dkimProbe resolve domain s).isValid = some true)) =
          s :: rest.filter (fun s => decide ((dkimProbe resolve domain s).isValid = some true)) := by
        simp [List.filter_cons, hv]
      rw [hfil]
      simp [List.append_assoc]
    · rw [if_neg hv, if_neg hs]
      rw [ih found hnd.of_cons (fun y hy => himm y (by simp [hy]))
        (fun y hy kv hkv => hdisj y (by simp [hy]) kv hkv)]
      have hfil : (s :: rest).filter
          (fun s => decide ((dkimProbe resolve domain s).isValid = some true)) =
          rest.filter (fun s => decide ((dkimProbe resolve domain s).isValid = some true)) := by
        simp [List.filter_cons, hv]
      rw [hfil]

/- ===================== Claims ===================== -/

/-- Claim C1, counterexample.  The claim asserts that every validator,
including checkDkim's per-selector probe, short-circuits on a nonzero
resolver Status and returns a failure without examining answer records.
The DKIM probe never inspects Status: on a Status 3 response that carries
an Answer it structurally validates the record and reports success. -/
theorem C1_dkim_ignores_status_counterexample :
    validateDkimForSelector ⟨3, some [⟨jstr "v=DKIM1; k=rsa; p=KEY"⟩]⟩ (jstr "google") =
      ⟨some true, jstr "All checks passed"⟩ := by
  decide

/-- Claim C1, amended.  For checkSpf, checkDmarc and checkMx a nonzero
Status short-circuits validation: the fixed failure result is returned for
every possible Answer field, so no answer record is examined.  (checkDkim's
per-selector probe is exempt: it never inspects Status.) -/
theorem C1_nonzero_status_short_circuit (st : Int) (ans : Option (List AnswerRecord))
    (h : st ≠ 0) :
    checkSpf ⟨st, ans⟩ = ⟨false, jstr "DNS query failed or returned an error status", none⟩ ∧
    checkDmarc ⟨st, ans⟩ = ⟨false, jstr "DNS query failed or returned an error status", none⟩ ∧
    checkMx ⟨st, ans⟩ = .ok ⟨false, jstr "DNS query failed or returned an error status", none⟩ := by
  refine ⟨?_, ?_, ?_⟩ <;> simp [checkSpf, checkDmarc, checkMx, h]

/-- Claim C1, witness for the amended theorem at Status 3 with an answer
list present. -/
theorem C1_nonzero_status_witness :
    checkSpf ⟨3, some [⟨jstr "v=spf1 a"⟩]⟩ =
      ⟨false, jstr "DNS query failed or returned an error status", none⟩ ∧
    checkDmarc ⟨3, some [⟨jstr "v=spf1 a"⟩]⟩ =
      ⟨false, jstr "DNS query failed or returned an error status", none⟩ ∧
    checkMx ⟨3, some [⟨jstr "v=spf1 a"⟩]⟩ =
      .ok ⟨false, jstr "DNS query failed or returned an error status", none⟩ :=
  C1_nonzero_status_short_circuit 3 (some [⟨jstr "v=spf1 a"⟩]) (by decide)

/-- Claim C2.  On a successful query (Status 0) whose Answer field is
absent or an empty list, checkSpf and checkDmarc both return
isValid false with reason exactly No TXT records found. -/
theorem C2_no_txt_records (ans : Option (List AnswerRecord))
    (h : ans = none ∨ ans = some []) :
    checkSpf ⟨0, ans⟩ = ⟨false, jstr "No TXT records found", none⟩ ∧
    checkDmarc ⟨0, ans⟩ = ⟨false, jstr "No TXT records found", none⟩ := by
  rcases h with rfl | rfl <;> exact ⟨rfl, rfl⟩

/-- Claim C2, witness at an absent Answer field. -/
theorem C2_no_txt_records_witness :
    checkSpf ⟨0, none⟩ = ⟨false, jstr "No TXT records found", none⟩ ∧
    checkDmarc ⟨0, none⟩ = ⟨false, jstr "No TXT records found", none⟩ :=
  C2_no_txt_records none (Or.inl rfl)

/-- Claim C3, counterexample.  selector1's probe fails with a malformed
structure reason, which is neither a no-record nor a no-DKIM-tagged-record
outcome, so the claim requires checkDkim to return that failure
immediately.  Because the record's excerpt contains the phrase
No valid DKIM records found, checkDkim's substring dispatch on the reason
message skips the selector instead, and the check succeeds via
selector2. -/
theorem C3_reason_dispatch_counterexample :
    dkimProbe fixtureResolveSkip (jstr "example.com") (jstr "selector1") =
      ⟨some false, invalidFormatReason (jstr "selector1")
        (jstr "v=DKIM1; p=No valid DKIM records found")⟩ ∧
    checkDkim fixtureResolveSkip (jstr "example.com") (some (jstr "microsoft")) =
      .ok ⟨true, jstr "DKIM records found", some [jstr "selector2"]⟩ :=
  ⟨by decide, rfl⟩

/-- Claim C3, amended.  Scanning the selector list in order, if a selector
yields a failure whose reason message contains neither
No DKIM records found nor No valid DKIM records found as a substring (in
practice: ambiguous multiple records, or a malformed record whose excerpt
avoids those phrases), checkDkim returns that failure immediately;
otherwise, if at least one selector probed structurally valid, it returns
success listing exactly the valid selectors in scan order; otherwise it
fails with No valid DKIM records found. -/
theorem C3_dkim_aggregation (resolve : JStr → ResolverResponse) (domain : JStr)
    (provider : Option JStr) (selectors : List JStr)
    (hsel : dkimSelectorList provider = some selectors) (hnd : selectors.Nodup) :
    (∀ pre s post, selectors = pre ++ s :: post →
        (∀ x ∈ pre, ¬ dkimImmediate (dkimProbe resolve domain x)) →
        dkimImmediate (dkimProbe resolve domain s) →
        checkDkim resolve domain provider =
          .ok ⟨false, (dkimProbe resolve domain s).reason, none⟩) ∧
    ((∀ s ∈ selectors, ¬ dkimImmediate (dkimProbe resolve domain s)) →
      (∃ s ∈ selectors, (dkimProbe resolve domain s).isValid = some true) →
      checkDkim resolve domain provider = .ok ⟨true, jstr "DKIM records found",
        some (selectors.filter
          (fun s => decide ((dkimProbe resolve domain s).isValid = some true)))⟩) ∧
    ((∀ s ∈ selectors, ¬ dkimImmediate (dkimProbe resolve domain s)) →
      (∀ s ∈ selectors, ¬ (dkimProbe resolve domain s).isValid = some true) →
      checkDkim resolve domain provider =
        .ok ⟨false, jstr "No valid DKIM records found", none⟩) := by
  have hck : checkDkim resolve domain provider =
      .ok (checkDkimLoop resolve domain selectors []) := by
    unfold checkDkim
    rw [hsel]
  refine ⟨?_, ?_, ?_⟩
  · intro pre s post hdecomp hpre hs
    rw [hck, hdecomp]
    rw [checkDkimLoop_immediate resolve domain s pre post [] hpre hs]
  · intro himm hex
    rw [hck, checkDkimLoop_scan resolve domain selectors [] hnd himm (by simp)]
    obtain ⟨s0, hs0mem, hs0⟩ := hex
    have hmem : s0 ∈ selectors.filter
        (fun s => decide ((dkimProbe resolve domain s).isValid = some true)) := by
      simp [List.mem_filter, hs0mem, hs0]
    have hne2 : selectors.filter
        (fun s => decide ((dkimProbe resolve domain s).isValid = some true)) ≠ [] := by
      intro hnil
      rw [hnil] at hmem
      cases hmem
    rw [if_pos (by simpa [List.length_pos] using hne2)]
    simp only [List.nil_append, List.map_map]
    have hid : (Prod.fst ∘ fun s : JStr => (s, (dkimProbe resolve domain s).reason)) =
        fun s : JStr => s := rfl
    rw [hid, List.map_id']
  · intro himm hnone
    rw [hck, checkDkimLoop_scan resolve domain selectors [] hnd himm (by simp)]
    have hfil : selectors.filter
        (fun s => decide ((dkimProbe resolve domain s).isValid = some true)) = [] := by
      rw [List.filter_eq_nil_iff]
      intro a ha
      simpa using hnone a ha
    simp [hfil]

/-- Claim C3, witness: a single valid google selector yields success
listing exactly that selector. -/
theorem C3_dkim_aggregation_witness :
    checkDkim (fun _ => ⟨0, some [⟨jstr "v=DKIM1; k=rsa; p=KEY"⟩]⟩) (jstr "example.com")
      (some (jstr "google")) =
    .ok ⟨true, jstr "DKIM records found", some [jstr "google"]⟩ := by
  have h := (C3_dkim_aggregation (fun _ => ⟨0, some [⟨jstr "v=DKIM1; k=rsa; p=KEY"⟩]⟩)
    (jstr "example.com") (some (jstr "google")) [jstr "google"] (by decide) (by decide)).2.1
    (by decide) (by decide)
  simpa using h

/-- Claim C4, counterexample.  The claim computes the lookup count by
splitting the text after the 6-character prefix on spaces with no
trimming.  On a record with a tab between the prefix and eleven a
mechanisms the claimed count is 10, so the claim requires checkSpf to
succeed, but the source trims the text first, counts 11, and rejects the
record. -/
theorem C4_untrimmed_count_counterexample :
    countDnsLookupsClaimed (jstr "v=spf1\ta a a a a a a a a a a") = 10 ∧
    countDnsLookups (jstr "v=spf1\ta a a a a a a a a a a") = 11 ∧
    checkSpf ⟨0, some [⟨jstr "v=spf1\ta a a a a a a a a a a"⟩]⟩ =
      ⟨false, jstr "Too many DNS lookups (exceeds 10)", none⟩ :=
  ⟨by decide, by decide, by decide⟩

/-- Claim C4, amended.  When exactly one answer survives the SPF filter
(quote-stripped text starting case-insensitively with v=spf1), checkSpf
fails with Too many DNS lookups (exceeds 10) exactly when countDnsLookups
of the quote-stripped text, which trims the post-prefix text before
splitting on spaces, exceeds 10, and otherwise succeeds returning that
text. -/
theorem C4_spf_lookup_budget (answers : List AnswerRecord) (record : AnswerRecord)
    (hfilter : answers.filter
      (fun record => isPre (jstr "v=spf1") (toLowerJS (stripEdgeQuotes record.data))) =
      [record]) :
    (countDnsLookups (stripEdgeQuotes record.data) > 10 →
      checkSpf ⟨0, some answers⟩ = ⟨false, jstr "Too many DNS lookups (exceeds 10)", none⟩) ∧
    (countDnsLookups (stripEdgeQuotes record.data) ≤ 10 →
      checkSpf ⟨0, some answers⟩ =
        ⟨true, jstr "Valid SPF record", some (stripEdgeQuotes record.data)⟩) := by
  have hne : ¬ answers.length = 0 := by
    rintro h0
    rw [List.length_eq_zero] at h0
    subst h0
    simp at hfilter
  constructor
  · intro hgt
    simp [checkSpf, hne, hfilter, hgt]
  · intro hle
    have hngt : ¬ countDnsLookups (stripEdgeQuotes record.data) > 10 := by omega
    simp [checkSpf, hne, hfilter, hngt]

/-- Claim C4, witness at a single-mechanism record within budget. -/
theorem C4_spf_lookup_budget_witness :
    checkSpf ⟨0, some [⟨jstr "v=spf1 include:a.com"⟩]⟩ =
      ⟨true, jstr "Valid SPF record", some (jstr "v=spf1 include:a.com")⟩ :=
  (C4_spf_lookup_budget [⟨jstr "v=spf1 include:a.com"⟩] ⟨jstr "v=spf1 include:a.com"⟩
    (by decide)).2 (by decide)

/-- Claim C5.  On a successful MX response whose answers all parse, if two
entries share a normalized exchange (the exchange list is not duplicate
free), checkMx fails with Duplicate MX exchanges found; nothing is assumed
about the preference values, since the duplicate check precedes the
per-record validation. -/
theorem C5_duplicate_mx_exchanges (answers : List AnswerRecord) (entries : List MxEntry)
    (hmap : mapMx answers = some entries)
    (hdup : ¬ (entries.map MxEntry.exchange).Nodup) :
    checkMx ⟨0, some answers⟩ = .ok ⟨false, jstr "Duplicate MX exchanges found", none⟩ := by
  have hlen : ¬ entries.length = 0 := by
    rintro h0
    rw [List.length_eq_zero] at h0
    subst h0
    simp at hdup
  have hcond : (entries.map MxEntry.exchange).dedup.length ≠ entries.length := by
    simpa using dedup_length_ne hdup
  simp [checkMx, hmap, hlen, hcond]

/-- Claim C5, witness: two records whose exchanges normalize to a.com,
with distinct preferences, one needing case folding and dot stripping. -/
theorem C5_duplicate_mx_exchanges_witness :
    checkMx ⟨0, some [⟨jstr "10 a.com"⟩, ⟨jstr "20 A.com."⟩]⟩ =
      .ok ⟨false, jstr "Duplicate MX exchanges found", none⟩ :=
  C5_duplicate_mx_exchanges [⟨jstr "10 a.com"⟩, ⟨jstr "20 A.com."⟩]
    [⟨some 10, jstr "a.com"⟩, ⟨some 20, jstr "a.com"⟩] (by decide) (by decide)

/-- Claim C6, counterexample.  The token +a incurs a lookup, but adding
the qualifier tilde in front of it (the claim allows adding a qualifier to
any lookup-incurring token) yields a token that no longer matches, so the
count drops from 1 to 0. -/
theorem C6_double_qualifier_counterexample :
    mechIncursLookup (jstr "+a") = true ∧
    countDnsLookups (jstr "v=spf1 +a") = 1 ∧
    countDnsLookups (jstr "v=spf1 ~+a") = 0 :=
  ⟨by decide, by decide, by decide⟩

/-- Claim C6, amended.  countDnsLookups is invariant under permuting the
mechanism token list; the per-token lookup test is unchanged by adding a
qualifier in front of a token that does not already start with one, and
removing the qualifier of a qualifier-prefixed lookup-incurring token
keeps it lookup-incurring.  (Adding a second qualifier to an
already-qualified token is not count-preserving, per the
counterexample.) -/
theorem C6_lookup_count_invariance :
    (∀ r1 r2 : JStr, (spfMechanisms r1).Perm (spfMechanisms r2) →
        countDnsLookups r1 = countDnsLookups r2) ∧
    (∀ (q : Char) (t : JStr), spfQualifier q = true → startsWithQualifier t = false →
        mechIncursLookup (q :: t) = mechIncursLookup t) ∧
    (∀ (q : Char) (t : JStr), spfQualifier q = true → mechIncursLookup (q :: t) = true →
        mechIncursLookup t = true) := by
  refine ⟨?_, ?_, ?_⟩
  · intro r1 r2 hperm
    exact hperm.countP_eq _
  · intro q t hq ht
    cases t with
    | nil => simp [mechIncursLookup, stripQualifier, hq]
    | cons c cs =>
      have hc : spfQualifier c = false := by simpa [startsWithQualifier] using ht
      simp [mechIncursLookup, stripQualifier, hq, hc]
  · intro q t hq h
    have hstrip : stripQualifier (q :: t) = t := by simp [stripQualifier, hq]
    rw [mechIncursLookup, hstrip] at h
    have h2 : stripQualifier t = t := by
      have hnq := mechPattern_not_qualifier h
      cases t with
      | nil => rfl
      | cons c cs =>
        simp only [startsWithQualifier] at hnq
        simp [stripQualifier, hnq]
    rw [mechIncursLookup, h2, h]

/-- Claim C6, witness: a permuted record keeps its count, prefixing a
qualifier to the bare token mx keeps the test, and stripping the
qualifier of the lookup-incurring token ?a keeps it lookup-incurring. -/
theorem C6_lookup_count_invariance_witness :
    countDnsLookups (jstr "v=spf1 a mx include:x.com") =
      countDnsLookups (jstr "v=spf1 mx include:x.com a") ∧
    mechIncursLookup ('~' :: jstr "mx") = mechIncursLookup (jstr "mx") ∧
    mechIncursLookup (jstr "a") = true :=
  ⟨C6_lookup_count_invariance.1 _ _ (by decide),
   C6_lookup_count_invariance.2.1 '~' (jstr "mx") (by decide) (by decide),
   C6_lookup_count_invariance.2.2 '?' (jstr "a") (by decide) (by decide)⟩

/-- Claim C7, counterexample.  The empty string is a provider argument
that is neither google nor microsoft and not absent, yet checkDkim does
not raise: the JS ternary's truthiness test treats the empty string as
falsy, so the call silently falls back to the common selector list and
returns a normal result, identical to the call with the provider
absent. -/
theorem C7_empty_provider_counterexample :
    checkDkim (fun _ => ⟨3, none⟩) (jstr "example.com") (some (jstr "")) =
      .ok ⟨false, jstr "No valid DKIM records found", none⟩ ∧
    checkDkim (fun _ => ⟨3, none⟩) (jstr "example.com") (some (jstr "")) =
      checkDkim (fun _ => ⟨3, none⟩) (jstr "example.com") none :=
  ⟨rfl, rfl⟩

/-- Claim C7, amended.  A nonempty provider argument other than google
and microsoft makes checkDkim raise (iterating the undefined selector
list throws a TypeError); no result object is returned and no fallback
list is used.  The empty string is exempt: being falsy, it silently
selects the common list, per the counterexample. -/
theorem C7_unknown_provider_throws (resolve : JStr → ResolverResponse) (domain p : JStr)
    (h0 : p ≠ []) (h1 : p ≠ jstr "google") (h2 : p ≠ jstr "microsoft") :
    checkDkim resolve domain (some p) = .error () := by
  simp [checkDkim, dkimSelectorList, dkimSelectorsForProviders, h0, h1, h2]

/-- Claim C7, witness at the provider tag used by the repository's own
test suite. -/
theorem C7_unknown_provider_throws_witness :
    checkDkim (fun _ => ⟨3, none⟩) (jstr "example.com") (some (jstr "invalid-provider")) =
      .error () :=
  C7_unknown_provider_throws (fun _ => ⟨3, none⟩) (jstr "example.com")
    (jstr "invalid-provider") (by decide) (by decide) (by decide)

/-- Claim C8.  An MX answer of the form preference, one space, exchange,
where the preference is a nonempty digit string (at most 15 digits, so the
JS double holds it exactly) and neither part contains a space, parses to
the numeric preference and the exchange lower-cased with one trailing dot
stripped.  mapMx is the parsing stage of checkMx. -/
theorem C8_mx_answer_parse (p e : JStr) (hp : ' ' ∉ p) (he : ' ' ∉ e) (hne : p ≠ [])
    (hd : ∀ c ∈ p, c.isDigit = true) (_hfits : p.length ≤ 15) :
    mapMx [⟨p ++ ' ' :: e⟩] =
      some [⟨some (Int.ofNat (natOfDigits p)), stripTrailDot (toLowerJS e)⟩] := by
  have hsplit : splitChar ' ' (p ++ ' ' :: e) = [p, e] := by
    rw [splitChar_append e hp, splitChar_no_sep he]
  simp [mapMx, hsplit, jsParseInt_digits hne hd]

/-- Claim C8, witness: the round trip of the spec, the answer
10 mail.example.com. parses to preference 10 and exchange
mail.example.com. -/
theorem C8_mx_answer_parse_witness :
    mapMx [⟨jstr "10 mail.example.com."⟩] =
      some [⟨some 10, jstr "mail.example.com"⟩] :=
  C8_mx_answer_parse (jstr "10") (jstr "mail.example.com.") (by decide) (by decide)
    (by decide) (by decide) (by decide)

/-- Claim C9, counterexample.  selector1's single DKIM-tagged record has a
lower-case version tag, so the claim requires checkDkim to fail the whole
check immediately with an Invalid DKIM record format reason.  Because the
record's excerpt contains the phrase No DKIM records found, the reason
dispatch skips the selector instead and the check succeeds via
selector2. -/
theorem C9_skip_phrase_counterexample :
    dkimProbe fixtureResolveLower (jstr "example.com") (jstr "selector1") =
      ⟨some false, invalidFormatReason (jstr "selector1")
        (jstr "v=dkim1; k=rsa; p=No DKIM records found")⟩ ∧
    checkDkim fixtureResolveLower (jstr "example.com") (some (jstr "microsoft")) =
      .ok ⟨true, jstr "DKIM records found", some [jstr "selector2"]⟩ :=
  ⟨by decide, rfl⟩

/-- Claim C9, amended.  With provider google, when the selector probe
returns a single answer that contains v=dkim1 case-insensitively but none
of whose quote-stripped, semicolon-split, trimmed segments starts with the
case-sensitive v=DKIM1, the structural check rejects the record and
checkDkim fails the whole check immediately with the
Invalid DKIM record format reason, provided that reason message does not
contain either of the phrases checkDkim's dispatch skips on. -/
theorem C9_case_sensitive_version_tag (resolve : JStr → ResolverResponse) (domain r : JStr)
    (hresp : (resolve (dkimQueryName (jstr "google") domain)).Answer = some [⟨r⟩])
    (htag : jsIncludes (toLowerJS r) (jstr "v=dkim1") = true)
    (hver : (dkimParts r).any (fun part => isPre (jstr "v=DKIM1") part) = false)
    (hskip1 : jsIncludes (invalidFormatReason (jstr "google") r)
      (jstr "No DKIM records found") = false)
    (hskip2 : jsIncludes (invalidFormatReason (jstr "google") r)
      (jstr "No valid DKIM records found") = false) :
    checkDkim resolve domain (some (jstr "google")) =
      .ok ⟨false, invalidFormatReason (jstr "google") r, none⟩ := by
  have hprobe : dkimProbe resolve domain (jstr "google") =
      ⟨some false, invalidFormatReason (jstr "google") r⟩ := by
    unfold dkimProbe validateDkimForSelector
    rw [hresp]
    simp [htag, isValidDkimRecord, hver]
  have hck : checkDkim resolve domain (some (jstr "google")) =
      .ok (checkDkimLoop resolve domain [jstr "google"] []) := by
    unfold checkDkim
    rfl
  rw [hck]
  simp [checkDkimLoop, hprobe, hskip1, hskip2]

/-- Claim C9, witness at the record of the claim's example, with its
lower-case version tag. -/
theorem C9_case_sensitive_version_tag_witness :
    checkDkim (fun _ => ⟨0, some [⟨jstr "v=dkim1; k=rsa; p=KEY"⟩]⟩) (jstr "example.com")
      (some (jstr "google")) =
    .ok ⟨false, invalidFormatReason (jstr "google") (jstr "v=dkim1; k=rsa; p=KEY"), none⟩ :=
  C9_case_sensitive_version_tag (fun _ => ⟨0, some [⟨jstr "v=dkim1; k=rsa; p=KEY"⟩]⟩)
    (jstr "example.com") (jstr "v=dkim1; k=rsa; p=KEY") rfl (by decide) (by decide)
    (by decide) (by decide)

/-- Claim C10.  On a successful MX response whose answer list contains a
record with no space in its data, the parsing stage aborts (the JS code
calls toLowerCase on an undefined exchange) and checkMx raises instead of
returning a result. -/
theorem C10_mx_parse_throws (answers : List AnswerRecord) (a : AnswerRecord)
    (hmem : a ∈ answers) (hns : ' ' ∉ a.data) :
    checkMx ⟨0, some answers⟩ = .error () := by
  simp [checkMx, mapMx_eq_none hmem hns]

/-- Claim C10, witness at the answer 10 of the claim. -/
theorem C10_mx_parse_throws_witness :
    checkMx ⟨0, some [⟨jstr "10"⟩]⟩ = .error () :=
  C10_mx_parse_throws [⟨jstr "10"⟩] ⟨jstr "10"⟩ (by decide) (by decide)

end SDDM
